import Mathlib

set_option autoImplicit false

/-!
Verification of the MCP SDK session layer.

This file gives a shallow embedding of the connection/session core of the
repository — `mcp_sdk/shared/session.py`, `mcp_sdk/shared/message.py` and
`mcp_sdk/shared/progress.py` — and proves or refutes the specification
claims about it.  Python coroutines are modelled as pure state-passing
functions over an explicit `Session` record; the non-reentrant
`asyncio.Lock` guarding the connection state is modelled by an explicit
held-flag, with an acquisition that can never succeed yielding a `blocked`
outcome; exceptions are explicit values; wall-clock instants and durations
are rationals supplied as arguments.
-/

namespace McpSdk

/-- RequestId mirrors `RequestId = Union[str, int]` in session.py. -/
inductive RequestId where
  | num (n : Nat)
  | str (s : String)
  deriving DecidableEq, Repr

/-- ConnectionState mirrors the `ConnectionState` enum in session.py. -/
inductive ConnectionState where
  | disconnected
  | connecting
  | connected
  | reconnecting
  | disconnecting
  | error
  deriving DecidableEq, Repr

/-- PyExc models the Python exceptions the embedded code can raise.
`nameError n` is the `NameError` produced when a `raise` (or any expression)
refers to a name `n` that is unbound in the enclosing module namespace:
mcp_sdk/shared/session.py imports only `McpError` from
`mcp_sdk.shared.exceptions`, so the names `MCPConnectionError`,
`MCPTimeoutError`, `MCPValidationError`, `ProgressNotification` and
`ProgressParams` used by its raise sites are all unbound there.
`typeError` is the `TypeError` raised by a synchronous `with` statement on
an object that defines no `__enter__`, as `_get_next_request_id` does on
anyio's async-only Lock. -/
inductive PyExc where
  | nameError (name : String)
  | typeError (msg : String)
  | mcpError (code : Int) (msg : String)
  | runtimeError (msg : String)
  | assertionError (msg : String)
  | valueError (msg : String)
  | messageValidationError (msg : String)
  deriving DecidableEq, Repr

/-- SessionMetrics mirrors the counter fields of the `SessionMetrics`
dataclass.  Timestamps are abstracted: `lastActivityTicks` counts updates of
`last_activity`, `lastErrorSet` records whether `last_error` was ever
assigned, and byte counts grow by one abstract unit per message. -/
structure SessionMetrics where
  requestsSent : Nat := 0
  requestsCompleted : Nat := 0
  requestErrors : Nat := 0
  notificationsSent : Nat := 0
  notificationsReceived : Nat := 0
  bytesSent : Nat := 0
  bytesReceived : Nat := 0
  reconnectionAttempts : Nat := 0
  lastErrorSet : Bool := false
  lastActivityTicks : Nat := 0
  deriving DecidableEq, Repr

/-- Responder mirrors the mutable fields of `RequestResponder` in
session.py.  `onCompleteCount` counts the invocations of the `on_complete`
callback (in the source, that callback pops the responder from the owning
session's in-flight table).  The creation instant is folded away: the
operations that consult the clock take the elapsed time since creation as an
argument. -/
structure Responder where
  requestId : RequestId
  completed : Bool := false
  entered : Bool := false
  cancelCalled : Bool := false
  timeout : Option ℚ := some 30
  onCompleteCount : Nat := 0
  deriving DecidableEq, Repr

/-- enterScope mirrors `RequestResponder.__enter__`: the responder is marked
entered and a fresh `anyio.CancelScope` is installed, so `cancel_called` of
the active scope is reset. -/
def Responder.enterScope (r : Responder) : Responder :=
  { r with entered := true, cancelCalled := false }

/-- exitScope mirrors `RequestResponder.__exit__`: if the responder is
completed the `on_complete` callback is invoked, then `entered` is cleared
and the cancel scope is exited. -/
def Responder.exitScope (r : Responder) : Responder :=
  let r1 := if r.completed then
    { r with onCompleteCount := r.onCompleteCount + 1 } else r
  { r1 with entered := false }

/-- timeoutExpired mirrors the Python condition
`self._timeout and (time.monotonic() - self._start_time) > self._timeout`.
A timeout of `0.0` is falsy in Python, so the comparison is skipped entirely
in that case (as it is when the timeout is `None`). -/
def Responder.timeoutExpired (r : Responder) (elapsed : ℚ) : Bool :=
  match r.timeout with
  | none => false
  | some t => if t = 0 then false else decide (t < elapsed)

/-- respond mirrors `RequestResponder.respond`.  The transmission performed
through `self._session._send_response` is abstracted: an `.ok` result means
the response was handed to the session for sending.  On the timed-out path
the source executes `raise MCPTimeoutError(...)`; that name is unbound in
mcp_sdk/shared/session.py, so the exception actually raised is a
`NameError`. -/
def Responder.respond (r : Responder) (elapsed : ℚ) :
    Responder × Except PyExc Unit :=
  if !r.entered then
    (r, .error (.runtimeError "RequestResponder must be used as a context manager"))
  else if r.completed then
    (r, .error (.assertionError "Request was already responded to"))
  else if r.timeoutExpired elapsed then
    ({ r with completed := true, onCompleteCount := r.onCompleteCount + 1 },
      .error (.nameError "MCPTimeoutError"))
  else
    ({ r with completed := true }, .ok ())

/-- cancel mirrors `RequestResponder.cancel`: a completed responder is left
untouched; otherwise the cancel scope is cancelled, the responder is marked
completed and `on_complete` is invoked. -/
def Responder.cancel (r : Responder) : Responder :=
  if r.completed then r
  else { r with
          cancelCalled := true
          completed := true
          onCompleteCount := r.onCompleteCount + 1 }

/-- WireMsg records a message written to the transport write stream by the
modelled operations. -/
inductive WireMsg where
  | request (id : Nat) (jsonrpc : String)
  deriving DecidableEq, Repr

/-- Session mirrors the mutable fields of `BaseSession` that the claims
touch.  `responseStreams` is the correlation table `_response_streams`
(keys of the registered single-slot response channels, in insertion order),
`inFlight` is the `_in_flight` table of inbound request responders,
`stateLockHeld` models the non-reentrant `asyncio.Lock` in `_state_lock`,
`reconnectTaskStarted` records `asyncio.create_task(self._reconnect_loop())`
and `sent` is the transcript of transport writes. -/
structure Session where
  state : ConnectionState := .disconnected
  stateLockHeld : Bool := false
  maxInFlight : Nat := 100
  reconnectAttempts : Nat := 3
  requestId : Nat := 0
  inFlight : List (RequestId × Responder) := []
  responseStreams : List RequestId := []
  metrics : SessionMetrics := {}
  reconnectTaskStarted : Bool := false
  sent : List WireMsg := []
  deriving DecidableEq, Repr

/-- PyResult is the outcome of running one of the session's coroutines to
completion: a normal return, a raised exception, or blocking forever on the
acquisition of a lock that can never be released. -/
inductive PyResult (α : Type) where
  | ok (s : Session) (a : α)
  | exn (s : Session) (e : PyExc)
  | blocked
  deriving DecidableEq, Repr

/-- isOk holds of a normally returning outcome. -/
def PyResult.isOk {α : Type} : PyResult α → Bool
  | .ok _ _ => true
  | _ => false

/-- exnOf extracts the raised exception, if any. -/
def PyResult.exnOf {α : Type} : PyResult α → Option PyExc
  | .exn _ e => some e
  | _ => none

/-- updateStateApply is the effect of `BaseSession._update_state` once the
state lock is held: no change when the state is already the target,
otherwise the state is replaced and, on a transition into Connected,
`last_activity` is refreshed and `reconnection_attempts` is bumped when the
old state was Reconnecting. -/
def updateStateApply (s : Session) (c : ConnectionState) : Session :=
  if s.state = c then s
  else
    let old := s.state
    let s1 := { s with state := c }
    if c = .connected then
      { s1 with metrics :=
        { s1.metrics with
            lastActivityTicks := s1.metrics.lastActivityTicks + 1
            reconnectionAttempts := s1.metrics.reconnectionAttempts +
              (if old = .reconnecting then 1 else 0) } }
    else s1

/-- updateState mirrors `BaseSession._update_state`, whose body runs under
`async with self._state_lock`.  `asyncio.Lock` is not reentrant, so when the
running task already holds the state lock the acquisition waits forever. -/
def updateState (s : Session) (c : ConnectionState) : PyResult Unit :=
  if s.stateLockHeld then .blocked
  else .ok (updateStateApply s c) ()

/-- handlerCancelSweep mirrors the cancellation loop of
`_handle_connection_error`: every responder in a snapshot of the in-flight
table receives `cancel()`; an active responder is completed and popped from
the table by its `on_complete` callback, while `cancel` is a no-op on an
already-completed responder, which therefore stays. -/
def handlerCancelSweep (tbl : List (RequestId × Responder)) :
    List (RequestId × Responder) :=
  tbl.filter (fun rv => rv.2.completed)

/-- handleConnectionError mirrors `BaseSession._handle_connection_error`.
The whole body runs under `async with self._state_lock`; in the terminal
states it returns at once, and in every other state it calls
`_update_state`, which tries to acquire the same non-reentrant lock again
and blocks forever.  The statements after that call (metrics update,
responder cancellation, stream clearing, reconnect-task start) are
translated faithfully but are unreachable. -/
def handleConnectionError (s : Session) (_e : PyExc) : PyResult Unit :=
  if s.stateLockHeld then .blocked
  else
    let s0 := { s with stateLockHeld := true }
    if s0.state = .disconnecting ∨ s0.state = .disconnected then
      .ok { s0 with stateLockHeld := false } ()
    else
      match updateState s0 .reconnecting with
      | .blocked => .blocked
      | .exn s1 e1 => .exn { s1 with stateLockHeld := false } e1
      | .ok s1 _ =>
        let s2 := { s1 with metrics :=
          { s1.metrics with
              lastErrorSet := true
              requestErrors := s1.metrics.requestErrors + 1 } }
        let s3 := { s2 with inFlight := handlerCancelSweep s2.inFlight }
        let s4 := { s3 with responseStreams := [] }
        let s5 := if 0 < s4.reconnectAttempts
          then { s4 with reconnectTaskStarted := true } else s4
        .ok { s5 with stateLockHeld := false } ()

/-- resetConnection mirrors `BaseSession._reset_connection`: the in-flight
table is cleared and every response stream is closed and removed. -/
def resetConnection (s : Session) : Session :=
  { s with inFlight := [], responseStreams := [] }

/-- reconnectGo mirrors the `while attempts < self._reconnect_attempts` loop
of `BaseSession._reconnect_loop`.  `remaining` counts the loop iterations
left (`reconnect_attempts - attempts`); `connInitOk k` says whether the
overridable `_initialize_connection` hook succeeds on attempt number `k`
(the default hook always succeeds; a transport that never recovers is an
oracle that is always false).  The returned pair carries the number of
attempts made and the number of `asyncio.sleep(self._reconnect_delay)`
calls executed between consecutive attempts. -/
def reconnectGo (connInitOk : Nat → Bool) :
    Nat → Nat → Nat → Session → PyResult (Nat × Nat)
  | 0, attempts, delays, s =>
    match updateState s .error with
    | .ok s1 _ => .ok s1 (attempts, delays)
    | .exn s1 e => .exn s1 e
    | .blocked => .blocked
  | remaining + 1, attempts, delays, s =>
    let a := attempts + 1
    let s1 := resetConnection s
    if connInitOk a then
      match updateState s1 .connected with
      | .ok s2 _ => .ok s2 (a, delays)
      | .exn s2 e => .exn s2 e
      | .blocked => .blocked
    else
      let d := if 0 < remaining then delays + 1 else delays
      reconnectGo connInitOk remaining a d s1

/-- reconnectLoop mirrors `BaseSession._reconnect_loop`. -/
def reconnectLoop (s : Session) (connInitOk : Nat → Bool) :
    PyResult (Nat × Nat) :=
  reconnectGo connInitOk s.reconnectAttempts 0 0 s

/-- PyMessage models the value held in `SessionMessage.message` as
`SessionMessage.__post_init__` inspects it: either not a dictionary, or a
dictionary whose `jsonrpc` entry is absent or holds some string.

Modelled from the spec: the module `mcp_sdk/types.py`, which defines
`JSONRPCMessage` and the request/response payload types, is absent from the
source tree (only its importers are present).  Following the spec's envelope
invariant that every Request and Response/Error carries a protocol version
tag, a `JSONRPCMessage` wrapping a payload built with `jsonrpc="2.0"` is
modelled as a mapping whose `jsonrpc` entry is `"2.0"`. -/
inductive PyMessage where
  | notDict
  | dict (jsonrpc : Option String)
  deriving DecidableEq, Repr

/-- versionTag is the `jsonrpc` entry of a message, `none` when the entry is
absent or the message is not a dictionary. -/
def PyMessage.versionTag : PyMessage → Option String
  | .notDict => none
  | .dict v => v

/-- sessionMessagePostInit mirrors `SessionMessage.__post_init__` in
mcp_sdk/shared/message.py. -/
def sessionMessagePostInit : PyMessage → Except PyExc Unit
  | .notDict => .error (.messageValidationError "Message must be a dictionary")
  | .dict none => .error (.messageValidationError "Missing required field: jsonrpc")
  | .dict (some v) =>
    if v = "2.0" then .ok ()
    else .error (.messageValidationError "Invalid JSON-RPC version")

/-- sendMessage mirrors `BaseSession._send_message`.  On a transport failure
the except block records the error and, when the session is Connected,
invokes `_handle_connection_error`, which deadlocks on the state lock; when
the session is not Connected it falls through to
`raise MCPConnectionError(...)`, whose unbound name raises a `NameError`. -/
def sendMessage (s : Session) (m : WireMsg) (transportFails : Bool) :
    PyResult Unit :=
  if transportFails then
    let s1 := { s with metrics := { s.metrics with lastErrorSet := true } }
    if s1.state = .connected then
      match handleConnectionError s1 (.runtimeError "transport failure") with
      | .blocked => .blocked
      | .ok s2 _ => .exn s2 (.nameError "MCPConnectionError")
      | .exn s2 _ => .exn s2 (.nameError "MCPConnectionError")
    else .exn s1 (.nameError "MCPConnectionError")
  else
    .ok { s with
      sent := s.sent ++ [m]
      metrics := { s.metrics with
        bytesSent := s.metrics.bytesSent + 1
        lastActivityTicks := s.metrics.lastActivityTicks + 1 } } ()

/-- removeFirst removes the first occurrence of a key, the behavior of
`dict.pop(key, None)` on a table with unique keys. -/
def removeFirst : List RequestId → RequestId → List RequestId
  | [], _ => []
  | k :: rest, r => if k = r then rest else k :: removeFirst rest r

/-- memKey decides key membership in the correlation table. -/
def memKey : List RequestId → RequestId → Bool
  | [], _ => false
  | k :: rest, r => if k = r then true else memKey rest r

/-- cleanupRequest mirrors the `finally` block of `send_request`: the
correlation-table entry of the request is popped and its response stream is
closed. -/
def cleanupRequest (s : Session) (rid : Nat) : Session :=
  { s with responseStreams := removeFirst s.responseStreams (.num rid) }

/-- getNextRequestId mirrors `BaseSession._get_next_request_id`.  Its body
is `with anyio.Lock(): self._request_id += 1; return self._request_id` — a
synchronous `with` statement on a freshly constructed anyio Lock.  anyio's
Lock is async-only (it defines `__aenter__`/`__aexit__` but no
`__enter__`), so entering the `with` raises `TypeError` on every call,
before the counter is touched; the increment and return are dead code. -/
def getNextRequestId (s : Session) : PyResult Nat :=
  .exn s (.typeError "Lock object does not support the context manager protocol")

/-- sendRequestRegistered translates `send_request` from the metrics update
through the transmission of the JSON-RPC request (session.py lines
740-767): registration of the response stream in the correlation table,
envelope construction (whose `SessionMessage.__post_init__` validation runs
on a message carrying `jsonrpc="2.0"`), and `_send_message`.  Because
`_get_next_request_id` always raises, this code is unreachable in the
program; it is translated faithfully for completeness.  An exception
escaping after the `try` block was entered reaches the outer except
handler, whose `isinstance(e, (McpError, MCPTimeoutError))` evaluates the
unbound `MCPTimeoutError` and raises a `NameError`, and the `finally`
cleanup runs. -/
def sendRequestRegistered (s : Session) (rid : Nat) (transportFails : Bool) :
    PyResult Nat :=
  let s2 := { s with metrics := { s.metrics with
      requestsSent := s.metrics.requestsSent + 1
      lastActivityTicks := s.metrics.lastActivityTicks + 1 } }
  let s3 := { s2 with responseStreams :=
      s2.responseStreams ++ [RequestId.num rid] }
  match sessionMessagePostInit (.dict (some "2.0")) with
  | .error _ => .exn (cleanupRequest s3 rid) (.nameError "MCPTimeoutError")
  | .ok _ =>
    match sendMessage s3 (.request rid "2.0") transportFails with
    | .blocked => .blocked
    | .exn s4 _ => .exn (cleanupRequest s4 rid) (.nameError "MCPTimeoutError")
    | .ok s4 _ => .ok s4 rid

/-- sendRequestPrefix mirrors `BaseSession.send_request` up to the point
where a request would have been transmitted: the connection-state gate, the
ceiling gate — which counts `self._in_flight`, the table of inbound request
responders — and then the request-id allocation.  Both gates execute
`raise MCPConnectionError(...)`; the name is unbound in the module, so the
exception raised is a `NameError`.  The id allocation itself raises
`TypeError` on every call (see getNextRequestId); it sits before the
`try`/`except`/`finally` of `send_request`, so that exception propagates to
the caller raw and the registration/transmission continuation is never
reached. -/
def sendRequestPrefix (s : Session) (transportFails : Bool) : PyResult Nat :=
  if s.state ≠ .connected then .exn s (.nameError "MCPConnectionError")
  else if s.maxInFlight ≤ s.inFlight.length then
    .exn s (.nameError "MCPConnectionError")
  else
    match getNextRequestId s with
    | .blocked => .blocked
    | .exn s1 e => .exn s1 e
    | .ok s1 rid => sendRequestRegistered s1 rid transportFails

/-- AwaitOutcome describes what the environment delivers to the registered
response stream while `send_request` waits inside `anyio.fail_after`. -/
inductive AwaitOutcome where
  | response (valid : Bool)
  | errorResponse (code : Int) (msg : String)
  | timeout
  | streamClosed
  deriving DecidableEq, Repr

/-- sendRequestAwait mirrors the waiting half of `send_request` together
with its except and finally clauses; like sendRequestRegistered it is
unreachable in the program, since the id allocation always raises first.  A matching response bumps
`requests_completed`; an invalid response raises at the
`MCPValidationError` site, a peer error raises `McpError`, a timeout raises
at the `MCPTimeoutError` site, and a closed stream raises `EndOfStream`;
each of those then reaches `isinstance(e, (McpError, MCPTimeoutError))` in
the outer except handler, where evaluating the unbound `MCPTimeoutError`
raises a `NameError` that propagates to the caller after the `finally`
cleanup. -/
def sendRequestAwait (s : Session) (rid : Nat) (out : AwaitOutcome) :
    PyResult Unit :=
  match out with
  | .response valid =>
    let s1 := { s with metrics := { s.metrics with
        requestsCompleted := s.metrics.requestsCompleted + 1
        lastActivityTicks := s.metrics.lastActivityTicks + 1 } }
    if valid then .ok (cleanupRequest s1 rid) ()
    else .exn (cleanupRequest s1 rid) (.nameError "MCPTimeoutError")
  | .errorResponse _ _ =>
    let s1 := { s with metrics := { s.metrics with
        requestsCompleted := s.metrics.requestsCompleted + 1
        lastActivityTicks := s.metrics.lastActivityTicks + 1 } }
    .exn (cleanupRequest s1 rid) (.nameError "MCPTimeoutError")
  | .timeout =>
    let s1 := { s with metrics := { s.metrics with
        requestErrors := s.metrics.requestErrors + 1 } }
    .exn (cleanupRequest s1 rid) (.nameError "MCPTimeoutError")
  | .streamClosed =>
    .exn (cleanupRequest s rid) (.nameError "MCPTimeoutError")

/-- sendRequest mirrors `BaseSession.send_request`: the transmission prefix
followed by the awaited outcome. -/
def sendRequest (s : Session) (transportFails : Bool) (out : AwaitOutcome) :
    PyResult Unit :=
  match sendRequestPrefix s transportFails with
  | .blocked => .blocked
  | .exn s1 e => .exn s1 e
  | .ok s1 rid => sendRequestAwait s1 rid out

/-- ResponseAction records where `_handle_response` routes an inbound
response or error message. -/
inductive ResponseAction where
  | deliveredToWaiter (rid : RequestId)
  | unmatchedLoggedAndForwarded (rid : RequestId)
  deriving DecidableEq, Repr

/-- handleResponse mirrors `BaseSession._handle_response`: the response
stream is popped by RequestId; when present the message is sent into exactly
that stream, otherwise a warning is logged and a `RuntimeError` naming the
unknown id is handed to the generic `_handle_incoming` hook. -/
def handleResponse (s : Session) (rid : RequestId) :
    Session × ResponseAction :=
  if memKey s.responseStreams rid then
    ({ s with responseStreams := removeFirst s.responseStreams rid },
      .deliveredToWaiter rid)
  else (s, .unmatchedLoggedAndForwarded rid)

/-- sendProgressNotification mirrors `BaseSession.send_progress_notification`
(session.py lines 1176-1234).  When the session is not Connected the state
gate executes `raise MCPConnectionError(...)`, an unbound name, raising a
`NameError`.  When it is Connected, the first statement of the `try` block
constructs `ProgressNotification(...)`; that name is also unbound in the
module, so a `NameError` is raised inside the `try`, and the except block
records the error and calls `_handle_connection_error`, which deadlocks on
the state lock; the trailing re-raise (again an unbound name) is
unreachable on that path.  In no case is a notification transmitted. -/
def sendProgressNotification (s : Session) : PyResult Unit :=
  if s.state ≠ .connected then .exn s (.nameError "MCPConnectionError")
  else
    let s1 := { s with metrics := { s.metrics with lastErrorSet := true } }
    match handleConnectionError s1 (.nameError "ProgressNotification") with
    | .blocked => .blocked
    | .ok s2 _ => .exn s2 (.nameError "MCPConnectionError")
    | .exn s2 _ => .exn s2 (.nameError "MCPConnectionError")

/-- ProgressCtx mirrors the mutable fields of `ProgressContext` in
mcp_sdk/shared/progress.py. -/
structure ProgressCtx where
  total : Option ℚ := none
  current : ℚ := 0
  lastReported : ℚ := 0
  minReportInterval : ℚ := 1/10
  deriving DecidableEq, Repr

/-- ProgressOutcome is the outcome of a `ProgressContext` coroutine: a
normal return, a raised exception, or blocking forever inside the session's
connection-error handler.  It carries the context state at that point,
which remains visible to other tasks. -/
inductive ProgressOutcome where
  | ok (p : ProgressCtx) (s : Session)
  | exn (p : ProgressCtx) (s : Session) (e : PyExc)
  | blockedForever (p : ProgressCtx)
  deriving DecidableEq, Repr

/-- progressOp mirrors `ProgressContext.progress`: a negative amount is
rejected, the amount is accumulated into `current`, and when at least
`_min_report_interval` has elapsed since `_last_reported` the context calls
`_report_progress` — that is, `session.send_progress_notification` —
updating `_last_reported` only if that call returns normally. -/
def ProgressCtx.progressOp (p : ProgressCtx) (s : Session)
    (amount now : ℚ) : ProgressOutcome :=
  if amount < 0 then
    .exn p s (.valueError "Progress amount cannot be negative")
  else
    let p1 := { p with current := p.current + amount }
    if p1.minReportInterval ≤ now - p1.lastReported then
      match sendProgressNotification s with
      | .blocked => .blockedForever p1
      | .exn s1 e => .exn p1 s1 e
      | .ok s1 _ => .ok { p1 with lastReported := now } s1
    else .ok p1 s

/-- stateStreams projects the correlation table of the resulting session
(empty when the coroutine blocked forever). -/
def PyResult.stateStreams {α : Type} : PyResult α → List RequestId
  | .ok s _ => s.responseStreams
  | .exn s _ => s.responseStreams
  | .blocked => []

/-- stateSent projects the transport transcript of the resulting session. -/
def PyResult.stateSent {α : Type} : PyResult α → List WireMsg
  | .ok s _ => s.sent
  | .exn s _ => s.sent
  | .blocked => []

/-- responderC4 is an entered, unanswered responder with the default
30-second timeout. -/
def responderC4 : Responder :=
  { requestId := .num 7, entered := true, timeout := some 30 }

/-- responderC5 is a freshly created responder for an inbound request. -/
def responderC5 : Responder := { requestId := .num 3 }

/-- sessionC3 is a Reconnecting session configured with two reconnection
attempts. -/
def sessionC3 : Session := { state := .reconnecting, reconnectAttempts := 2 }

/-- C2: code bug.  For every session outside Disconnecting and Disconnected,
`_handle_connection_error` blocks forever: its body holds the non-reentrant
state lock when it calls `_update_state`, which tries to acquire the same
lock again.  None of the claimed effects — the transition to Reconnecting,
responder cancellation, response-channel closing and clearing, starting the
reconnection loop — is ever performed. -/
theorem handleConnectionError_deadlock_bug :
    handleConnectionError { state := .connected }
        (.runtimeError "transport failure") = .blocked ∧
    handleConnectionError { state := .reconnecting }
        (.runtimeError "transport failure") = .blocked ∧
    handleConnectionError { state := .connecting }
        (.runtimeError "transport failure") = .blocked ∧
    handleConnectionError { state := .error }
        (.runtimeError "transport failure") = .blocked := by
  refine ⟨rfl, rfl, rfl, rfl⟩

/-- C10: in the Disconnected or Disconnecting state the connection-error
handler is a complete no-op: it returns with the connection state, the
in-flight responder table, the pending response channels, the metrics and
the reconnect-task flag exactly as they were. -/
theorem handleConnectionError_terminal_noop (s : Session) (e : PyExc)
    (hl : s.stateLockHeld = false)
    (hs : s.state = .disconnected ∨ s.state = .disconnecting) :
    handleConnectionError s e = .ok s () := by
  cases s with
  | mk st lock mif ra rid infl rs m rt snt =>
    rcases hs with h | h <;> subst h <;>
      simp_all [handleConnectionError, updateState]

/-- C10 witness: the handler applied to a concrete Disconnected session. -/
theorem handleConnectionError_terminal_noop_witness :
    handleConnectionError { state := ConnectionState.disconnected }
        (.runtimeError "x")
      = .ok { state := ConnectionState.disconnected } () :=
  handleConnectionError_terminal_noop _ _ rfl (Or.inl rfl)

/-- C4: code bug.  When `respond` runs after the timeout has elapsed the
responder is marked terminal and nothing is sent, but the raise site names
`MCPTimeoutError`, a name unbound in mcp_sdk/shared/session.py, so the
exception actually raised is a `NameError` rather than the documented
timeout failure; moreover a timeout of exactly 0 is falsy in Python, so it
is never enforced and `respond` sends normally however much time has
passed. -/
theorem respond_timeout_nameerror_bug :
    responderC4.respond 31
      = ({ responderC4 with completed := true, onCompleteCount := 1 },
          .error (.nameError "MCPTimeoutError")) ∧
    ({ responderC4 with timeout := some 0 }).respond 31
      = ({ responderC4 with timeout := some 0, completed := true },
          .ok ()) := by
  constructor <;> rfl

/-- C5: counterexample.  A responder that is entered, cancelled inside its
scope, and then exited has the on-complete callback invoked twice — once by
`cancel` and once more by `__exit__`, which re-invokes it for every
completed responder — refuting the exactly-once part of the claim. -/
theorem cancel_then_exit_double_callback_counterexample :
    responderC5.enterScope.cancel.exitScope.onCompleteCount = 2 ∧
    ¬ responderC5.enterScope.cancel.exitScope.onCompleteCount = 1 := by
  constructor
  · rfl
  · decide

/-- C5 (amended): `cancel` is idempotent — a second cancel on a terminal
responder changes nothing, and the cancelling transition itself invokes the
callback exactly once; but the context-manager exit invokes the callback
once more for every completed responder, so a responder terminated by a
successful `respond` inside its scope sees exactly one invocation over its
lifetime, while one cancelled inside its scope sees two. -/
theorem cancel_idempotent_amended (r : Responder) (elapsed : ℚ)
    (he : r.entered = true) (hc : r.completed = false)
    (ht : r.timeoutExpired elapsed = false) :
    r.cancel.cancel = r.cancel ∧
    r.cancel.onCompleteCount = r.onCompleteCount + 1 ∧
    (r.respond elapsed).1.exitScope.onCompleteCount = r.onCompleteCount + 1 ∧
    r.cancel.exitScope.onCompleteCount = r.onCompleteCount + 2 := by
  refine ⟨?_, ?_, ?_, ?_⟩ <;>
    simp [Responder.cancel, Responder.respond, Responder.exitScope,
      he, hc, ht]

/-- C5 witness: the amended claim applied to a concrete entered
responder. -/
theorem cancel_idempotent_amended_witness :
    ({ requestId := RequestId.num 9, entered := true } :
        Responder).cancel.exitScope.onCompleteCount = 0 + 2 :=
  (cancel_idempotent_amended
    { requestId := RequestId.num 9, entered := true } 1 rfl rfl
    (by decide)).2.2.2

/-- C6: code bug.  `send_request` delivers raw unclassified exceptions: on
a session that is not Connected the state gate's raise evaluates the
unbound name `MCPConnectionError`, so the caller receives a `NameError`;
and on a Connected session every call that passes the gates raises
`TypeError` at `_get_next_request_id` — a synchronous `with` on anyio's
async-only Lock — before the `try` block, so that exception too reaches
the caller unwrapped.  Neither is a taxonomy error. -/
theorem sendRequest_raw_exception_bug :
    (sendRequest { state := .disconnected } false .timeout).exnOf
        = some (.nameError "MCPConnectionError") ∧
    (∀ out, (sendRequest { state := .connected } false out).exnOf
        = some (.typeError
            "Lock object does not support the context manager protocol")) := by
  exact ⟨rfl, fun _ => rfl⟩

/-- C1: code bug.  No `send_request` ever reaches the transport: on a
Connected session below the inbound-responder ceiling the call raises
`TypeError` at `_get_next_request_id` (a synchronous `with` on anyio's
async-only Lock) before a correlation entry is registered or anything is
written, leaving the session — correlation table, transcript, metrics —
untouched, so the outstanding count can never grow at all; and with the
ceiling already met the gate's raise is a `NameError` at the unbound
`MCPConnectionError` name, not a capacity error (no CapacityError class
exists anywhere in the code). -/
theorem sendRequest_capacity_bug :
    (∀ out, sendRequest { state := .connected, maxInFlight := 1 } false out
        = .exn { state := .connected, maxInFlight := 1 }
            (.typeError
              "Lock object does not support the context manager protocol")) ∧
    (sendRequest { state := .connected, maxInFlight := 1 } false
        .timeout).stateSent = [] ∧
    (sendRequest { state := .connected, maxInFlight := 1 } false
        .timeout).stateStreams = [] ∧
    sendRequest { state := .connected, maxInFlight := 0 } false .timeout
      = .exn { state := .connected, maxInFlight := 0 }
          (.nameError "MCPConnectionError") := by
  exact ⟨fun _ => rfl, rfl, rfl, rfl⟩

/-- A key is absent from a table that never contained it. -/
theorem memKey_eq_false_of_not_mem (l : List RequestId) (r : RequestId)
    (h : ¬ r ∈ l) : memKey l r = false := by
  induction l with
  | nil => rfl
  | cons k rest ih =>
    rw [List.mem_cons] at h
    push_neg at h
    simp [memKey, Ne.symm h.1, ih h.2]

/-- A key removed from a duplicate-free table is no longer present. -/
theorem memKey_removeFirst_self (l : List RequestId) (r : RequestId)
    (h : l.Nodup) : memKey (removeFirst l r) r = false := by
  induction l with
  | nil => rfl
  | cons k rest ih =>
    rcases List.nodup_cons.mp h with ⟨hk, hrest⟩
    by_cases hkr : k = r
    · subst hkr
      simpa [removeFirst] using memKey_eq_false_of_not_mem rest k hk
    · simp [removeFirst, hkr, memKey, ih hrest]

/-- C8: with a duplicate-free correlation table, an inbound response whose
RequestId is registered is delivered to exactly that entry's waiter and the
entry is removed from the table; a response whose id is unknown leaves the
table unchanged and is logged and forwarded to the generic incoming-message
hook rather than silently dropped. -/
theorem handleResponse_routing (s : Session) (rid : RequestId)
    (hnd : s.responseStreams.Nodup) :
    (memKey s.responseStreams rid = true →
      handleResponse s rid
        = ({ s with responseStreams := removeFirst s.responseStreams rid },
            .deliveredToWaiter rid) ∧
      memKey (handleResponse s rid).1.responseStreams rid = false) ∧
    (memKey s.responseStreams rid = false →
      handleResponse s rid = (s, .unmatchedLoggedAndForwarded rid)) := by
  constructor
  · intro hm
    refine ⟨by simp [handleResponse, hm], ?_⟩
    simp only [handleResponse, hm, if_true]
    exact memKey_removeFirst_self _ _ hnd
  · intro hm
    simp [handleResponse, hm]

/-- C8 witness: routing at a concrete two-entry correlation table. -/
theorem handleResponse_routing_witness :
    handleResponse { responseStreams := [RequestId.num 1, RequestId.num 2] }
        (RequestId.num 2)
      = ({ responseStreams :=
             removeFirst [RequestId.num 1, RequestId.num 2]
               (RequestId.num 2) },
          .deliveredToWaiter (RequestId.num 2)) ∧
    memKey (handleResponse
        { responseStreams := [RequestId.num 1, RequestId.num 2] }
        (RequestId.num 2)).1.responseStreams (RequestId.num 2) = false :=
  (handleResponse_routing
    { responseStreams := [RequestId.num 1, RequestId.num 2] }
    (RequestId.num 2) (by decide)).1 rfl

/-- C9: `SessionMessage.__post_init__` fails whenever the wrapped message
lacks the `jsonrpc` version tag or carries a tag other than the expected
`"2.0"`, and a message that passes validation always carries the tag
`"2.0"`; the envelope `send_request` constructs carries exactly that
tag. -/
theorem sessionMessage_version_gate (m : PyMessage) (v : String)
    (hv : v ≠ "2.0") :
    (m.versionTag = none →
      ∃ msg, sessionMessagePostInit m
        = .error (.messageValidationError msg)) ∧
    (∃ msg, sessionMessagePostInit (.dict (some v))
        = .error (.messageValidationError msg)) ∧
    (sessionMessagePostInit m = .ok () → m.versionTag = some "2.0") ∧
    sessionMessagePostInit (.dict (some "2.0")) = .ok () := by
  refine ⟨?_, ?_, ?_, rfl⟩
  · intro h
    cases m with
    | notDict => exact ⟨_, rfl⟩
    | dict j =>
      cases j with
      | none => exact ⟨_, rfl⟩
      | some w => simp [PyMessage.versionTag] at h
  · refine ⟨"Invalid JSON-RPC version", ?_⟩
    simp [sessionMessagePostInit, hv]
  · intro h
    cases m with
    | notDict => simp [sessionMessagePostInit] at h
    | dict j =>
      cases j with
      | none => simp [sessionMessagePostInit] at h
      | some w =>
        by_cases hw : w = "2.0"
        · subst hw; rfl
        · simp [sessionMessagePostInit, hw] at h

/-- C9 witness: a mismatched tag is rejected and the constructed envelope's
tag is accepted. -/
theorem sessionMessage_version_gate_witness :
    (∃ msg, sessionMessagePostInit (.dict (some "1.0"))
        = .error (.messageValidationError msg)) ∧
    sessionMessagePostInit (.dict (some "2.0")) = .ok () :=
  ⟨(sessionMessage_version_gate PyMessage.notDict "1.0" (by decide)).2.1,
   (sessionMessage_version_gate PyMessage.notDict "1.0" (by decide)).2.2.2⟩

/-- A state transition lands in the target state and leaves the lock flag
unchanged. -/
theorem updateStateApply_state (s : Session) (c : ConnectionState) :
    (updateStateApply s c).state = c ∧
    (updateStateApply s c).stateLockHeld = s.stateLockHeld := by
  unfold updateStateApply
  by_cases h : s.state = c
  · simp [h]
  · by_cases hc : c = .connected
    · subst hc
      simp [h]
    · simp [h, hc]

/-- With an always-failing connection-init hook the reconnection loop runs
through all its remaining iterations, sleeping between consecutive ones,
and ends in the Error state. -/
theorem reconnectGo_allFail (f : Nat → Bool) (hf : ∀ k, f k = false) :
    ∀ (rem attempts delays : Nat) (s : Session),
      s.stateLockHeld = false →
      ∃ s1, reconnectGo f rem attempts delays s
          = .ok s1 (attempts + rem, delays + (rem - 1)) ∧
        s1.state = .error := by
  intro rem
  induction rem with
  | zero =>
    intro attempts delays s hl
    refine ⟨updateStateApply s .error, ?_,
      (updateStateApply_state s .error).1⟩
    simp [reconnectGo, updateState, hl]
  | succ r ih =>
    intro attempts delays s hl
    have hfa := hf (attempts + 1)
    have hl1 : (resetConnection s).stateLockHeld = false := hl
    obtain ⟨s1, hgo, hst⟩ :=
      ih (attempts + 1) (if 0 < r then delays + 1 else delays)
        (resetConnection s) hl1
    refine ⟨s1, ?_, hst⟩
    have hstep : reconnectGo f (r + 1) attempts delays s
        = reconnectGo f r (attempts + 1)
            (if 0 < r then delays + 1 else delays) (resetConnection s) := by
      simp [reconnectGo, hfa]
    rw [hstep, hgo]
    have ha : (attempts + 1) + r = attempts + (r + 1) := by omega
    have hd : (if 0 < r then delays + 1 else delays) + (r - 1)
        = delays + ((r + 1) - 1) := by
      rcases Nat.eq_zero_or_pos r with h0 | h0
      · subst h0; simp
      · rw [if_pos h0]; omega
    rw [ha, hd]

/-- When the connection-init hook first succeeds at attempt `j` within the
remaining budget, the loop stops right there in the Connected state. -/
theorem reconnectGo_firstSuccess (f : Nat → Bool) :
    ∀ (rem attempts delays : Nat) (s : Session) (j : Nat),
      s.stateLockHeld = false →
      attempts < j → j ≤ attempts + rem →
      f j = true →
      (∀ k, attempts < k → k < j → f k = false) →
      ∃ s1, reconnectGo f rem attempts delays s
          = .ok s1 (j, delays + (j - attempts - 1)) ∧
        s1.state = .connected := by
  intro rem
  induction rem with
  | zero =>
    intro attempts delays s j _ hj1 hj2 _ _
    omega
  | succ r ih =>
    intro attempts delays s j hl hj1 hj2 hfj hbelow
    by_cases hja : j = attempts + 1
    · subst hja
      refine ⟨updateStateApply (resetConnection s) .connected, ?_,
        (updateStateApply_state _ _).1⟩
      have hzero : delays + (attempts + 1 - attempts - 1) = delays := by
        omega
      rw [hzero]
      simp [reconnectGo, hfj, updateState, resetConnection, hl]
    · have hfa : f (attempts + 1) = false :=
        hbelow (attempts + 1) (by omega) (by omega)
      obtain ⟨s1, hgo, hst⟩ :=
        ih (attempts + 1) (if 0 < r then delays + 1 else delays)
          (resetConnection s) j hl (by omega) (by omega) hfj
          (fun k hk1 hk2 => hbelow k (by omega) hk2)
      refine ⟨s1, ?_, hst⟩
      have hstep : reconnectGo f (r + 1) attempts delays s
          = reconnectGo f r (attempts + 1)
              (if 0 < r then delays + 1 else delays) (resetConnection s) := by
        simp [reconnectGo, hfa]
      rw [hstep, hgo]
      have hr : 0 < r := by omega
      have hd : (if 0 < r then delays + 1 else delays)
          + (j - (attempts + 1) - 1) = delays + (j - attempts - 1) := by
        rw [if_pos hr]; omega
      rw [hd]

/-- C3: with `reconnect_attempts = N ≥ 1`, a connection-initialization hook
that fails on every attempt makes the reconnection loop perform exactly N
attempts separated by N - 1 reconnect delays and then transition the session
to Error; if instead the hook first succeeds at attempt j ≤ N, the loop
transitions the session back to Connected after exactly j attempts and
stops immediately. -/
theorem reconnectLoop_bound (s : Session) (f : Nat → Bool)
    (hl : s.stateLockHeld = false) (_hN : 1 ≤ s.reconnectAttempts) :
    ((∀ k, f k = false) →
      ∃ s1, reconnectLoop s f
          = .ok s1 (s.reconnectAttempts, s.reconnectAttempts - 1) ∧
        s1.state = .error) ∧
    (∀ j, 1 ≤ j → j ≤ s.reconnectAttempts → f j = true →
      (∀ k, 1 ≤ k → k < j → f k = false) →
      ∃ s1, reconnectLoop s f = .ok s1 (j, j - 1) ∧
        s1.state = .connected) := by
  constructor
  · intro hf
    obtain ⟨s1, h1, h2⟩ :=
      reconnectGo_allFail f hf s.reconnectAttempts 0 0 s hl
    exact ⟨s1, by simpa [reconnectLoop] using h1, h2⟩
  · intro j hj1 hj2 hfj hb
    obtain ⟨s1, h1, h2⟩ :=
      reconnectGo_firstSuccess f s.reconnectAttempts 0 0 s j hl
        (by omega) (by omega) hfj (fun k hk1 hk2 => hb k (by omega) hk2)
    exact ⟨s1, by simpa [reconnectLoop] using h1, h2⟩

/-- C3 witness: a transport that never recovers exhausts both configured
attempts with one delay in between and lands in Error. -/
theorem reconnectLoop_bound_witness :
    ∃ s1, reconnectLoop sessionC3 (fun _ => false)
        = .ok s1 (sessionC3.reconnectAttempts,
            sessionC3.reconnectAttempts - 1) ∧
      s1.state = .error :=
  (reconnectLoop_bound sessionC3 (fun _ => false) rfl (by decide)).1
    (fun _ => rfl)

/-- C7: code bug.  `progress` rejects negative amounts and accumulates the
amount into `current`, and a throttled call (within `min_report_interval`
of the last report) returns normally without touching the session; but an
unthrottled call never transmits anything: on a Connected session
`send_progress_notification` raises `NameError` at the unbound
`ProgressNotification` name and then blocks forever inside
`_handle_connection_error`, and on any other session its state gate raises
`NameError` — so zero progress notifications are ever transmitted, against
the claimed transmit-when-the-interval-has-elapsed behavior. -/
theorem progress_never_transmits_bug :
    ({} : ProgressCtx).progressOp { state := .connected } (-1) 1
      = .exn {} { state := .connected }
          (.valueError "Progress amount cannot be negative") ∧
    ({} : ProgressCtx).progressOp { state := .connected } 1 1
      = .blockedForever { current := 1 } ∧
    ({} : ProgressCtx).progressOp { state := .connected } 1 (1 / 20)
      = .ok { current := 1 } { state := .connected } ∧
    ({} : ProgressCtx).progressOp { state := .disconnected } 1 1
      = .exn { current := 1 } { state := .disconnected }
          (.nameError "MCPConnectionError") := by
  refine ⟨?_, ?_, ?_, ?_⟩ <;>
      norm_num [ProgressCtx.progressOp, sendProgressNotification,
        handleConnectionError, updateState] <;>
    rfl

end McpSdk
